import Mathlib

/-!
Verification of the `fsevent_watch` command-line watcher
(`src/fsevent_watch/main.c`) against its natural-language specification.

Paths and all byte strings are modelled as `List Char`; machine integers
(`SInt32` OS version components, `UInt32` flag masks, `UInt64` event ids)
are modelled as `Nat`, which is faithful here because the program only
compares them against small constants and renders them in decimal.
`exit(EXIT_FAILURE)` paths are modelled with `Except String`, the error
value being the diagnostic printed to standard error.
-/

/-- A path, as the C code sees it: a NUL-terminated byte string, modelled
as the list of its characters before the terminator. -/
abbrev FPath := List Char

/-- The value of `PATH_MAX` in `<limits.h>` on Darwin, the platform this
program targets: 1024 bytes including the NUL terminator. -/
def PATH_MAX : Nat := 1024

/-- Model of C `strlcpy(dst, src, size)`: copies at most `size - 1`
characters of `src` into `dst` and NUL-terminates (for `size > 0`); the
resulting string held in `dst` is the first `size - 1` characters of
`src`. -/
def strlcpy (src : FPath) (size : Nat) : FPath :=
  src.take (size - 1)

/-- The path-resolution logic of `append_path` (main.c lines 39-64).
`realpath` is the canonicalization oracle (`NULL` result is `none`);
`cwd` is what `getcwd` writes into the buffer, assumed to satisfy the
`getcwd` contract `cwd.length ≤ PATH_MAX - 1`.

- `realpath(path, fullPath)` succeeds: its result is used;
- otherwise, if `path[0] != '/'` (relative): the buffer receives `cwd`,
  then `'/'` at position `len`, then `strlcpy(&fullPath[len+1], path,
  PATH_MAX - (len+1))`;
- otherwise (absolute): `strlcpy(fullPath, path, PATH_MAX)`. -/
def append_path_resolve (realpath : FPath → Option FPath) (cwd : FPath)
    (path : FPath) : FPath :=
  match realpath path with
  | some resolved => resolved
  | none =>
    if path.head? ≠ some '/' then
      cwd ++ ['/'] ++ strlcpy path (PATH_MAX - (cwd.length + 1))
    else
      strlcpy path PATH_MAX

/-- `kFSEventStreamCreateFlagNone` (value from the platform FSEvents.h). -/
def kFSEventStreamCreateFlagNone : Nat := 0

/-- `kFSEventStreamCreateFlagNoDefer` (value from the platform FSEvents.h). -/
def kFSEventStreamCreateFlagNoDefer : Nat := 2

/-- `kFSEventStreamCreateFlagWatchRoot` (value from the platform FSEvents.h). -/
def kFSEventStreamCreateFlagWatchRoot : Nat := 4

/-- `kFSEventStreamCreateFlagIgnoreSelf` (value from the platform FSEvents.h). -/
def kFSEventStreamCreateFlagIgnoreSelf : Nat := 8

/-- `kFSEventStreamCreateFlagFileEvents` (value from the platform FSEvents.h). -/
def kFSEventStreamCreateFlagFileEvents : Nat := 16

/-- Modelled from the spec: the output-format enum of `common.h` (not under
`src/`); a C enum is an integer type, `classic` is the first enumerator. -/
def kFSEventWatchOutputFormatClassic : Nat := 0

/-- Modelled from the spec: the output-format enum of `common.h` (not under
`src/`); `annotated` (NIW) is the second enumerator. -/
def kFSEventWatchOutputFormatNIW : Nat := 1

/-- The fields of `struct cli_info` (from `cli.h`) that `main.c` reads:
start id, output format, the four boolean flags and the positional path
arguments (`inputs`, with `inputs_num = inputs.length`).  The `latency`
field is a C `double` passed through unchanged and never inspected by the
core, so it is not modelled. -/
structure cli_info where
  since_when_arg : Nat
  format_arg : Nat
  no_defer_flag : Bool
  watch_root_flag : Bool
  ignore_self_flag : Bool
  file_events_flag : Bool
  inputs : List FPath
deriving DecidableEq

/-- The global `config` structure of main.c, minus the unmodelled `double`
latency field. -/
structure WatchConfig where
  sinceWhen : Nat
  flags : Nat
  paths : List FPath
  format : Nat
deriving DecidableEq

/-- Diagnostic printed when the global minimum-OS check fails
(main.c line 91). -/
def unavailable_msg : String :=
  "The FSEvents API is unavailable on this version of macos!"

/-- Diagnostic printed when `--ignore-self` is denied (main.c line 119). -/
def ignore_self_msg : String :=
  "MacOSX 10.6 or later is required for --ignore-self"

/-- Diagnostic printed when `--file-events` is denied (main.c line 128). -/
def file_events_msg : String :=
  "MacOSX 10.7 or later required for --file-events"

/-- The `--ignore-self` capability gate (main.c lines 115-122): if the flag
is requested, it is set only when `(osMajorVersion == 10) &
(osMinorVersion >= 6)`; otherwise the process prints a diagnostic and
exits with `EXIT_FAILURE`. -/
def gate_ignore_self (osMajorVersion osMinorVersion : Nat) (requested : Bool)
    (flags : Nat) : Except String Nat :=
  if requested then
    if osMajorVersion = 10 ∧ 6 ≤ osMinorVersion then
      Except.ok (flags ||| kFSEventStreamCreateFlagIgnoreSelf)
    else
      Except.error ignore_self_msg
  else
    Except.ok flags

/-- The `--file-events` capability gate (main.c lines 124-131): if the flag
is requested, it is set only when `(osMajorVersion == 10) &
(osMinorVersion >= 7)`; otherwise the process prints a diagnostic and
exits with `EXIT_FAILURE`. -/
def gate_file_events (osMajorVersion osMinorVersion : Nat) (requested : Bool)
    (flags : Nat) : Except String Nat :=
  if requested then
    if osMajorVersion = 10 ∧ 7 ≤ osMinorVersion then
      Except.ok (flags ||| kFSEventStreamCreateFlagFileEvents)
    else
      Except.error file_events_msg
  else
    Except.ok flags

/-- The unconditional flag accumulation of `parse_cli_settings` (main.c
lines 110-113): starting from `kFSEventStreamCreateFlagNone`, or in
`NoDefer` and `WatchRoot` when requested; these flags are never
version-gated. -/
def base_flags (args : cli_info) : Nat :=
  let flags0 := kFSEventStreamCreateFlagNone
  let flags1 := if args.no_defer_flag then
      flags0 ||| kFSEventStreamCreateFlagNoDefer else flags0
  if args.watch_root_flag then
    flags1 ||| kFSEventStreamCreateFlagWatchRoot else flags1

/-- `parse_cli_settings` (main.c lines 79-169), after the external CLI
parser has produced `args`.  `osMajorVersion`/`osMinorVersion` are the
`Gestalt` results (0 on detection failure); `realpath` and `cwd` feed
`append_path`.  The C `&` of the 0/1 comparison results is logical
conjunction.  An `Except.error` models `exit(EXIT_FAILURE)` after the
diagnostic. -/
def parse_cli_settings (realpath : FPath → Option FPath) (cwd : FPath)
    (osMajorVersion osMinorVersion : Nat) (args : cli_info) :
    Except String WatchConfig :=
  if osMajorVersion = 10 ∧ osMinorVersion < 5 then
    Except.error unavailable_msg
  else
    match gate_ignore_self osMajorVersion osMinorVersion args.ignore_self_flag
        (base_flags args) with
    | Except.error e => Except.error e
    | Except.ok flags3 =>
      match gate_file_events osMajorVersion osMinorVersion args.file_events_flag flags3 with
      | Except.error e => Except.error e
      | Except.ok flags4 =>
        let paths :=
          if args.inputs = [] then
            [append_path_resolve realpath cwd ['.']]
          else
            args.inputs.map (append_path_resolve realpath cwd)
        Except.ok ⟨args.since_when_arg, flags4, paths, args.format_arg⟩

/-- One record of an event batch as delivered to the callback: parallel
entries of `eventPaths`, `eventFlags` (`UInt32`) and `eventIds`
(`UInt64`). -/
structure FSEvent where
  path : FPath
  flags : Nat
  id : Nat
deriving DecidableEq

/-- `classic_output_format` (main.c lines 172-179): the loop writes
`"%s:"` for each path to stdout in order, then a single `"\n"`; the value
is the total byte sequence written. -/
def classic_output_format (events : List FSEvent) : FPath :=
  (events.foldl (fun out e => out ++ (e.path ++ [':'])) []) ++ ['\n']

/-- `niw_output_format` (main.c lines 182-194): the loop writes
`"%lu:%llu:%s\n"` for each record (flags then id, both in unsigned
decimal, then the path) in order, then a single `"\n"`. -/
def niw_output_format (events : List FSEvent) : FPath :=
  (events.foldl (fun out e =>
    out ++ (Nat.toDigits 10 e.flags ++ [':'] ++ Nat.toDigits 10 e.id
      ++ [':'] ++ e.path ++ ['\n'])) []) ++ ['\n']

/-- One observable action of the callback on standard output. -/
inductive OutAction where
  | write (chunk : FPath)
  | flush
deriving DecidableEq

/-- `callback` (main.c lines 196-230): dispatch on `config.format`
(classic / NIW / anything else writes nothing), then `fflush(stdout)`. -/
def callback (format : Nat) (events : List FSEvent) : List OutAction :=
  (if format = kFSEventWatchOutputFormatClassic then
    [OutAction.write (classic_output_format events)]
  else if format = kFSEventWatchOutputFormatNIW then
    [OutAction.write (niw_output_format events)]
  else []) ++ [OutAction.flush]

/-- The operations `main` requests of the native FSEvents primitive. -/
inductive StreamOp where
  | create
  | schedule
  | start
  | run
  | flushSync
  | stop
deriving DecidableEq

/-- The sequence of native-primitive calls in `main` after
`parse_cli_settings` returns (main.c lines 265-288):
`FSEventStreamCreate`, `FSEventStreamScheduleWithRunLoop`,
`FSEventStreamStart`, `CFRunLoopRun`, `FSEventStreamFlushSync`,
`FSEventStreamStop`, straight-line with no branches. -/
def main_stream_ops : List StreamOp :=
  [StreamOp.create, StreamOp.schedule, StreamOp.start,
   StreamOp.run, StreamOp.flushSync, StreamOp.stop]

/-- `main` (main.c lines 232-289) after the process-group setup: parse the
settings (any failure there exits with `EXIT_FAILURE` = 1 before any
stream exists), then perform the straight-line stream lifecycle and
return 0.  The result is the list of stream operations performed and the
process exit status. -/
def main_run (realpath : FPath → Option FPath) (cwd : FPath)
    (osMajorVersion osMinorVersion : Nat) (args : cli_info) :
    List StreamOp × Nat :=
  match parse_cli_settings realpath cwd osMajorVersion osMinorVersion args with
  | Except.error _ => ([], 1)
  | Except.ok _ => (main_stream_ops, 0)

/-- Transcription of the spec's version ordering: OS version
`maj.minr` is at least `reqMaj.reqMin` in the usual lexicographic sense
(the reading under which the spec says a gated flag "requires OS version
≥ 10.6"). -/
def versionAtLeast (maj minr reqMaj reqMin : Nat) : Prop :=
  reqMaj < maj ∨ (maj = reqMaj ∧ reqMin ≤ minr)

instance (maj minr reqMaj reqMin : Nat) :
    Decidable (versionAtLeast maj minr reqMaj reqMin) := by
  unfold versionAtLeast; infer_instance

/-- Spec transcription for the classic format: every path of the batch, in
order, each followed by a colon, concatenated. -/
def emit_concat (f : FSEvent → FPath) : List FSEvent → FPath
  | [] => []
  | e :: rest => f e ++ emit_concat f rest

/-- The classic wire format as the spec words it: all paths on one line,
colon after each, then a trailing newline; no flags or ids. -/
def classic_spec (events : List FSEvent) : FPath :=
  emit_concat (fun e => e.path ++ [':']) events ++ ['\n']

/-- The annotated (NIW) wire format as the spec words it: one
`flags:id:path` line per record, flags and id in unsigned decimal, then a
blank line terminating the batch. -/
def niw_spec (events : List FSEvent) : FPath :=
  emit_concat (fun e => Nat.toDigits 10 e.flags ++ [':']
    ++ Nat.toDigits 10 e.id ++ [':'] ++ e.path ++ ['\n']) events ++ ['\n']

/-- The simulated batch of the spec's end-to-end scenarios A and B. -/
def demoBatch : List FSEvent :=
  [⟨"/tmp/a".data, 0, 1⟩, ⟨"/tmp/b".data, 0, 2⟩]

/-- A canonicalization oracle on which every path fails to resolve
(no watched entry exists yet). -/
def rpNone : FPath → Option FPath := fun _ => none

/-- A canonicalization oracle that resolves only `"."`, to the current
working directory `/w`. -/
def rpDot : FPath → Option FPath :=
  fun p => if p = ['.'] then some "/w".data else none

/-- An absolute path of 1101 characters, longer than `PATH_MAX`. -/
def longAbsA : FPath := '/' :: List.replicate 1100 'a'

/-- Another absolute path longer than `PATH_MAX` (1501 characters). -/
def longAbsB : FPath := '/' :: List.replicate 1500 'b'

/-- A relative path of 1100 characters, longer than `PATH_MAX`. -/
def longRelC : FPath := List.replicate 1100 'c'

/-! ## Helper lemmas -/

lemma foldl_emit_eq (f : FSEvent → FPath) (events : List FSEvent)
    (out : FPath) :
    events.foldl (fun o e => o ++ f e) out = out ++ emit_concat f events := by
  induction events generalizing out with
  | nil => simp [emit_concat]
  | cons e rest ih => simp [emit_concat, List.foldl_cons, ih, List.append_assoc]

lemma classic_eq_spec (events : List FSEvent) :
    classic_output_format events = classic_spec events := by
  unfold classic_output_format classic_spec
  rw [foldl_emit_eq]
  simp

lemma niw_eq_spec (events : List FSEvent) :
    niw_output_format events = niw_spec events := by
  unfold niw_output_format niw_spec
  rw [foldl_emit_eq]
  simp

lemma emit_concat_map (f : FSEvent → FPath) (g : FSEvent → FSEvent)
    (events : List FSEvent) :
    emit_concat f (events.map g) = emit_concat (fun e => f (g e)) events := by
  induction events with
  | nil => rfl
  | cons e rest ih => simp [emit_concat, ih]

lemma emit_concat_count_zero (f : FSEvent → FPath) (c : Char)
    (events : List FSEvent) (h : ∀ e ∈ events, c ∉ f e) :
    (emit_concat f events).count c = 0 := by
  induction events with
  | nil => rfl
  | cons e rest ih =>
    have h1 : (f e).count c = 0 := List.count_eq_zero.mpr (h e (by simp))
    have h2 := ih (fun x hx => h x (by simp [hx]))
    simp [emit_concat, List.count_append, h1, h2]

lemma parse_ok_iff (realpath : FPath → Option FPath) (cwd : FPath)
    (maj minr : Nat) (args : cli_info) :
    (∃ c, parse_cli_settings realpath cwd maj minr args = Except.ok c) ↔
      (¬(maj = 10 ∧ minr < 5) ∧
       (args.ignore_self_flag = true → maj = 10 ∧ 6 ≤ minr) ∧
       (args.file_events_flag = true → maj = 10 ∧ 7 ≤ minr)) := by
  unfold parse_cli_settings gate_ignore_self gate_file_events
  by_cases h1 : maj = 10 ∧ minr < 5
  · simp [h1]
  · rw [if_neg h1]
    by_cases hm : maj = 10
    · subst hm
      simp only [not_and, not_lt] at h1
      have h5 : 5 ≤ minr := h1 trivial
      cases hi : args.ignore_self_flag <;> cases hf : args.file_events_flag <;>
        by_cases h6 : 6 ≤ minr <;> by_cases h7 : 7 ≤ minr <;>
        simp [hi, hf, h6, h7]
      all_goals omega
    · cases hi : args.ignore_self_flag <;> cases hf : args.file_events_flag <;>
        simp [hi, hf, hm]

lemma parse_error_unavailable_iff (realpath : FPath → Option FPath)
    (cwd : FPath) (maj minr : Nat) (args : cli_info) :
    parse_cli_settings realpath cwd maj minr args = Except.error unavailable_msg
      ↔ (maj = 10 ∧ minr < 5) := by
  unfold parse_cli_settings gate_ignore_self gate_file_events
  by_cases h1 : maj = 10 ∧ minr < 5
  · simp [h1]
  · rw [if_neg h1]
    by_cases hm : maj = 10
    · subst hm
      simp only [not_and, not_lt] at h1
      have h5 : 5 ≤ minr := h1 trivial
      cases hi : args.ignore_self_flag <;> cases hf : args.file_events_flag <;>
        by_cases h6 : 6 ≤ minr <;> by_cases h7 : 7 ≤ minr <;>
        simp [hi, hf, h6, h7, unavailable_msg, ignore_self_msg,
          file_events_msg]
      all_goals omega
    · cases hi : args.ignore_self_flag <;> cases hf : args.file_events_flag <;>
        simp [hi, hf, hm, unavailable_msg, ignore_self_msg,
          file_events_msg]

lemma parse_ok_paths (realpath : FPath → Option FPath) (cwd : FPath)
    (maj minr : Nat) (args : cli_info) (c : WatchConfig)
    (h : parse_cli_settings realpath cwd maj minr args = Except.ok c) :
    c.paths = if args.inputs = [] then [append_path_resolve realpath cwd ['.']]
      else args.inputs.map (append_path_resolve realpath cwd) := by
  unfold parse_cli_settings at h
  split at h
  · exact absurd h (by simp)
  · split at h
    · exact absurd h (by simp)
    · split at h
      · exact absurd h (by simp)
      · injection h with h'
        rw [← h']

lemma append_path_resolve_none (realpath : FPath → Option FPath)
    (cwd path : FPath) (h : realpath path = none) :
    append_path_resolve realpath cwd path =
      if path.head? ≠ some '/' then
        cwd ++ ['/'] ++ strlcpy path (PATH_MAX - (cwd.length + 1))
      else strlcpy path PATH_MAX := by
  unfold append_path_resolve
  rw [h]

/-! ## The claims -/

/-- Claim C6: for every event batch, the classic formatter emits each path
in batch order followed by a colon, all on one line terminated by a single
newline; the output contains no flag or id values (it is invariant under
erasing them); and on the simulated batch of scenario A the output is
exactly `/tmp/a:/tmp/b:\n`. -/
theorem classic_format_correct :
    classic_output_format demoBatch = "/tmp/a:/tmp/b:\n".data ∧
    ∀ events : List FSEvent,
      classic_output_format events = classic_spec events ∧
      classic_output_format events
        = classic_output_format (events.map (fun e => ⟨e.path, 0, 0⟩)) ∧
      ((∀ e ∈ events, '\n' ∉ e.path) →
        (classic_output_format events).count '\n' = 1) := by
  refine ⟨by decide, fun events => ⟨classic_eq_spec events, ?_, ?_⟩⟩
  · rw [classic_eq_spec, classic_eq_spec]
    unfold classic_spec
    rw [emit_concat_map]
  · intro h
    rw [classic_eq_spec]
    unfold classic_spec
    rw [List.count_append]
    have h0 : (emit_concat (fun e => e.path ++ [':']) events).count '\n' = 0 := by
      apply emit_concat_count_zero
      intro e he hmem
      rcases List.mem_append.mp hmem with h1 | h2
      · exact h e he h1
      · simp at h2
    rw [h0]
    decide

/-- Witness for C6 at the scenario-A batch: the classic output holds
exactly one newline. -/
theorem classic_format_correct_witness :
    (classic_output_format demoBatch).count '\n' = 1 :=
  ((classic_format_correct.2 demoBatch).2.2) (by decide)

/-- Claim C7: for every event batch, the annotated (NIW) formatter emits
one `flags:id:path` line per record in batch order, flags and id in
unsigned decimal, each line terminated by a newline, followed by one blank
line terminating the batch; on the simulated batch of scenario B the
output is exactly `0:1:/tmp/a\n0:2:/tmp/b\n\n`. -/
theorem niw_format_correct :
    niw_output_format demoBatch = "0:1:/tmp/a\n0:2:/tmp/b\n\n".data ∧
    ∀ events : List FSEvent, niw_output_format events = niw_spec events :=
  ⟨by decide, niw_eq_spec⟩

/-- Claim C9: the native-primitive operations of the watch session are
invoked in the strict linear order create, schedule, start, run,
flush-synchronously, stop; flush-sync and stop each happen exactly once
with the flush strictly before the stop, and no partial lifecycle
exists (either the whole sequence runs or configuration failed and nothing
ran). -/
theorem stream_lifecycle_order :
    main_stream_ops = [StreamOp.create, StreamOp.schedule, StreamOp.start,
      StreamOp.run, StreamOp.flushSync, StreamOp.stop] ∧
    main_stream_ops.indexOf StreamOp.flushSync
      < main_stream_ops.indexOf StreamOp.stop ∧
    main_stream_ops.count StreamOp.flushSync = 1 ∧
    main_stream_ops.count StreamOp.stop = 1 ∧
    ∀ (realpath : FPath → Option FPath) (cwd : FPath) (maj minr : Nat)
      (args : cli_info),
      (main_run realpath cwd maj minr args).1 = main_stream_ops ∨
      (main_run realpath cwd maj minr args).1 = [] := by
  refine ⟨rfl, by decide, by decide, by decide, ?_⟩
  intro realpath cwd maj minr args
  unfold main_run
  split
  · exact Or.inr rfl
  · exact Or.inl rfl

/-- Claim C10: on a zero-event batch the callback still writes output and
flushes (one newline for classic, one newline for annotated), and for a
format value that is neither classic nor annotated it writes nothing but
still flushes standard output. -/
theorem callback_empty_batch_flush :
    callback kFSEventWatchOutputFormatClassic []
      = [OutAction.write ['\n'], OutAction.flush] ∧
    callback kFSEventWatchOutputFormatNIW []
      = [OutAction.write ['\n'], OutAction.flush] ∧
    ∀ (format : Nat) (events : List FSEvent),
      format ≠ kFSEventWatchOutputFormatClassic →
      format ≠ kFSEventWatchOutputFormatNIW →
      callback format events = [OutAction.flush] := by
  refine ⟨by decide, by decide, ?_⟩
  intro format events h1 h2
  simp [callback, h1, h2]

/-- Witness for C10 at format value 2 (neither enumerator): only a flush
is performed. -/
theorem callback_empty_batch_flush_witness :
    callback 2 [] = [OutAction.flush] :=
  callback_empty_batch_flush.2.2 2 [] (by decide) (by decide)

/-- Claim C1 counterexample: OS version 11.0 meets the spec's lexicographic
minimum `10.6`, yet requesting ignore-self on it is denied with the 10.6
diagnostic, because the code requires the major version to equal 10
exactly. -/
theorem capability_gate_claim_counterexample :
    versionAtLeast 11 0 10 6 ∧
    parse_cli_settings rpNone ['/'] 11 0 ⟨0, 0, false, false, true, false, [['/','t']]⟩
      = Except.error ignore_self_msg :=
  ⟨by decide, rfl⟩

/-- Claim C1 (amended): the capability gate allows a version-gated flag iff
the detected major version is exactly 10 and the minor version meets the
flag's minimum (6 for ignore-self, 7 for file-events); parsing succeeds
iff the global minimum-OS check and every requested gate pass, and when a
requested gated flag is not allowed the process exits with status 1 before
any stream operation. -/
theorem capability_gate_correct (realpath : FPath → Option FPath)
    (cwd : FPath) (maj minr : Nat) (args : cli_info) :
    ((∃ c, parse_cli_settings realpath cwd maj minr args = Except.ok c) ↔
      (¬(maj = 10 ∧ minr < 5) ∧
       (args.ignore_self_flag = true → maj = 10 ∧ 6 ≤ minr) ∧
       (args.file_events_flag = true → maj = 10 ∧ 7 ≤ minr))) ∧
    ((args.ignore_self_flag = true ∧ ¬(maj = 10 ∧ 6 ≤ minr)) ∨
      (args.file_events_flag = true ∧ ¬(maj = 10 ∧ 7 ≤ minr)) →
      main_run realpath cwd maj minr args = ([], 1)) := by
  refine ⟨parse_ok_iff realpath cwd maj minr args, ?_⟩
  intro hden
  unfold main_run
  cases hp : parse_cli_settings realpath cwd maj minr args with
  | error e => rfl
  | ok c =>
    exfalso
    have hok := (parse_ok_iff realpath cwd maj minr args).mp ⟨c, hp⟩
    rcases hden with ⟨hr, hn⟩ | ⟨hr, hn⟩
    · exact hn (hok.2.1 hr)
    · exact hn (hok.2.2 hr)

/-- Witness for C1 (amended) at version 10.5 with ignore-self requested:
the process performs no stream operation and exits with status 1. -/
theorem capability_gate_correct_witness :
    main_run rpNone ['/'] 10 5 ⟨0, 0, false, false, true, false, []⟩ = ([], 1) :=
  (capability_gate_correct rpNone ['/'] 10 5
    ⟨0, 0, false, false, true, false, []⟩).2 (Or.inl ⟨rfl, by decide⟩)

/-- Claim C3 counterexample: detected version 0.0 (the value used when
detection fails) is below the spec's minimum 10.5, yet the program does
not refuse to start: parsing succeeds, because the global check requires
the major version to equal 10 exactly. -/
theorem min_os_claim_counterexample :
    ¬ versionAtLeast 0 0 10 5 ∧
    ∃ c, parse_cli_settings rpNone ['/'] 0 0 ⟨0, 0, false, false, false, false, [['/','t']]⟩
      = Except.ok c :=
  ⟨by decide, ⟨_, rfl⟩⟩

/-- Claim C3 (amended): the program refuses to start with the
FSEvents-unavailable diagnostic precisely when the detected major version
is exactly 10 and the minor version is below 5; in that case it exits with
status 1 before resolving any path or performing any stream operation.
A detected version of 0 (detection failure) passes the global check. -/
theorem min_os_check_correct (realpath : FPath → Option FPath) (cwd : FPath)
    (maj minr : Nat) (args : cli_info) :
    (parse_cli_settings realpath cwd maj minr args
        = Except.error unavailable_msg ↔ (maj = 10 ∧ minr < 5)) ∧
    (maj = 10 ∧ minr < 5 → main_run realpath cwd maj minr args = ([], 1)) := by
  refine ⟨parse_error_unavailable_iff realpath cwd maj minr args, fun h => ?_⟩
  have hp := (parse_error_unavailable_iff realpath cwd maj minr args).mpr h
  unfold main_run
  rw [hp]

/-- Witness for C3 (amended) at version 10.4: no stream operation happens
and the exit status is 1. -/
theorem min_os_check_correct_witness :
    main_run rpNone ['/'] 10 4 ⟨0, 0, false, false, false, false, []⟩ = ([], 1) :=
  (min_os_check_correct rpNone ['/'] 10 4
    ⟨0, 0, false, false, false, false, []⟩).2 (by decide)

/-- Claim C8: whenever parsing succeeds, the configured paths collection
is non-empty; with zero supplied paths exactly one path is added, obtained
by resolving `"."` (which `realpath` canonicalizes to the current working
directory); otherwise every supplied path is resolved and appended in
order. -/
theorem paths_never_empty (realpath : FPath → Option FPath) (cwd : FPath)
    (maj minr : Nat) (args : cli_info) (c : WatchConfig)
    (h : parse_cli_settings realpath cwd maj minr args = Except.ok c) :
    c.paths ≠ [] ∧
    (args.inputs = [] → c.paths = [append_path_resolve realpath cwd ['.']]) ∧
    (args.inputs = [] → ∀ r, realpath ['.'] = some r → c.paths = [r]) ∧
    (args.inputs ≠ [] →
      c.paths = args.inputs.map (append_path_resolve realpath cwd)) := by
  have hp := parse_ok_paths realpath cwd maj minr args c h
  by_cases hin : args.inputs = []
  · rw [hp, if_pos hin]
    refine ⟨by simp, fun _ => rfl, fun _ r hr => ?_, fun hne => absurd hin hne⟩
    simp [append_path_resolve, hr]
  · rw [hp, if_neg hin]
    refine ⟨?_, fun he => absurd he hin, fun he _ _ => absurd he hin,
      fun _ => rfl⟩
    simpa using hin

/-- Witness for C8: with no path arguments, the watched path list is the
single resolved current working directory and in particular non-empty. -/
theorem paths_never_empty_witness :
    (⟨0, 0, ["/w".data], 0⟩ : WatchConfig).paths ≠ [] :=
  (paths_never_empty rpDot ['/'] 10 7 ⟨0, 0, false, false, false, false, []⟩
    ⟨0, 0, ["/w".data], 0⟩ rfl).1

/-- Claim C2 counterexample: an absolute path of 1101 characters exceeds
`PATH_MAX`, yet resolution does not abort: it returns a truncated
(1023-character) prefix of the input. -/
theorem path_overflow_claim_counterexample :
    PATH_MAX < longAbsA.length ∧
    append_path_resolve rpNone ['/'] longAbsA = longAbsA.take (PATH_MAX - 1) ∧
    append_path_resolve rpNone ['/'] longAbsA ≠ longAbsA := by
  have h2 : append_path_resolve rpNone ['/'] longAbsA
      = longAbsA.take (PATH_MAX - 1) := rfl
  have hlen : longAbsA.length = 1101 := by
    rw [longAbsA, List.length_cons, List.length_replicate]
  refine ⟨by rw [hlen]; decide, h2, fun h => ?_⟩
  rw [h2] at h
  have hl := congrArg List.length h
  rw [List.length_take, hlen] at hl
  simp only [PATH_MAX] at hl
  omega

/-- Claim C2 (amended): when canonicalization fails and the resolved path
would exceed the platform maximum, the resolver does not abort; it
silently truncates (per `strlcpy`) the computed path to `PATH_MAX - 1`
characters, so the stored path always fits but may be a partial prefix. -/
theorem path_overflow_truncates (realpath : FPath → Option FPath)
    (cwd path : FPath) (hrp : realpath path = none)
    (hcwd : cwd.length + 2 ≤ PATH_MAX) :
    append_path_resolve realpath cwd path =
      (if path.head? = some '/' then path
        else cwd ++ '/' :: path).take (PATH_MAX - 1) ∧
    (append_path_resolve realpath cwd path).length ≤ PATH_MAX - 1 := by
  have hmain : append_path_resolve realpath cwd path =
      (if path.head? = some '/' then path
        else cwd ++ '/' :: path).take (PATH_MAX - 1) := by
    rw [append_path_resolve_none realpath cwd path hrp]
    by_cases habs : path.head? = some '/'
    · rw [if_neg (not_not_intro habs), if_pos habs]
      rfl
    · rw [if_pos habs, if_neg habs]
      unfold strlcpy
      rw [List.take_append_eq_append_take,
        List.take_of_length_le (l := cwd) (by omega)]
      obtain ⟨k, hk⟩ : ∃ k, PATH_MAX - 1 - cwd.length = k + 1 :=
        ⟨PATH_MAX - 2 - cwd.length, by omega⟩
      rw [hk, List.take_succ_cons]
      have hik : PATH_MAX - (cwd.length + 1) - 1 = k := by omega
      rw [hik]
      simp
  refine ⟨hmain, ?_⟩
  rw [hmain]
  simp [List.length_take]

/-- Witness for C2 (amended) on a short absolute path: truncation to
`PATH_MAX - 1` is the identity there and the length bound holds. -/
theorem path_overflow_truncates_witness :
    append_path_resolve rpNone ['/'] ['/','x']
      = (if (['/','x'] : FPath).head? = some '/' then (['/','x'] : FPath)
          else ['/'] ++ '/' :: ['/','x']).take (PATH_MAX - 1) :=
  (path_overflow_truncates rpNone ['/'] ['/','x'] rfl (by decide)).1

/-- Claim C4 counterexample: an absolute path of 1501 characters on which
canonicalization fails is not returned unchanged — it is truncated. -/
theorem absolute_unchanged_claim_counterexample :
    longAbsB.head? = some '/' ∧ rpNone longAbsB = none ∧
    append_path_resolve rpNone ['/'] longAbsB ≠ longAbsB := by
  have h2 : append_path_resolve rpNone ['/'] longAbsB
      = longAbsB.take (PATH_MAX - 1) := rfl
  have hlen : longAbsB.length = 1501 := by
    rw [longAbsB, List.length_cons, List.length_replicate]
  refine ⟨rfl, rfl, fun h => ?_⟩
  rw [h2] at h
  have hl := congrArg List.length h
  rw [List.length_take, hlen] at hl
  simp only [PATH_MAX] at hl
  omega

/-- Claim C4 (amended): an absolute input path on which canonicalization
fails is returned unchanged whenever its length is below `PATH_MAX`;
longer inputs are truncated to `PATH_MAX - 1` characters. -/
theorem absolute_nonexistent_unchanged (realpath : FPath → Option FPath)
    (cwd path : FPath) (habs : path.head? = some '/')
    (hrp : realpath path = none) (hlen : path.length < PATH_MAX) :
    append_path_resolve realpath cwd path = path := by
  rw [append_path_resolve_none realpath cwd path hrp,
    if_neg (not_not_intro habs)]
  unfold strlcpy
  exact List.take_of_length_le (by omega)

/-- Witness for C4 (amended): the short non-resolvable absolute path `/x`
passes through unchanged. -/
theorem absolute_nonexistent_unchanged_witness :
    append_path_resolve rpNone ['/','w'] ['/','x'] = ['/','x'] :=
  absolute_nonexistent_unchanged rpNone ['/','w'] ['/','x'] rfl rfl (by decide)

/-- Claim C5 counterexample: a relative path of 1100 characters on which
canonicalization fails does not resolve to cwd ++ '/' ++ path — the
concatenation is truncated to fit `PATH_MAX`. -/
theorem relative_concat_claim_counterexample :
    longRelC.head? ≠ some '/' ∧ rpNone longRelC = none ∧
    append_path_resolve rpNone ['/','a'] longRelC
      ≠ ['/','a'] ++ '/' :: longRelC := by
  have h2 : append_path_resolve rpNone ['/','a'] longRelC
      = ['/','a'] ++ ['/'] ++ longRelC.take (PATH_MAX - 3 - 1) := rfl
  have hlen : longRelC.length = 1100 := by
    rw [longRelC, List.length_replicate]
  refine ⟨by decide, rfl, fun h => ?_⟩
  rw [h2] at h
  have hl := congrArg List.length h
  simp only [List.length_append, List.length_cons, List.length_nil,
    List.length_take, hlen, PATH_MAX] at hl
  omega

/-- Claim C5 (amended): a relative input path on which canonicalization
fails resolves to the current working directory, a `'/'` separator and
the input concatenated, with no symlink resolution, whenever the
concatenation fits below `PATH_MAX`; longer results are truncated. -/
theorem relative_nonexistent_cwd_concat (realpath : FPath → Option FPath)
    (cwd path : FPath) (hrel : path.head? ≠ some '/')
    (hrp : realpath path = none)
    (hfit : cwd.length + 1 + path.length < PATH_MAX) :
    append_path_resolve realpath cwd path = cwd ++ '/' :: path := by
  rw [append_path_resolve_none realpath cwd path hrp, if_pos hrel]
  unfold strlcpy
  rw [List.take_of_length_le (by omega)]
  simp

/-- Witness for C5 (amended): from cwd `/w`, the non-resolvable relative
path `x` resolves to `/w/x`. -/
theorem relative_nonexistent_cwd_concat_witness :
    append_path_resolve rpNone ['/','w'] ['x'] = ['/','w'] ++ '/' :: ['x'] :=
  relative_nonexistent_cwd_concat rpNone ['/','w'] ['x'] (by decide) rfl
    (by decide)
